import Mathlib

/-!
Shallow embedding of the bootstraat event-registration backend
(backend/app/main.py, backend/app/domain/models.py, backend/app/domain/dto.py).

The relational store is modelled as lists of rows.  Each HTTP handler that
mutates state becomes a function `Store → payload → Store × Except RegError r`:
an `HTTPException` raised in the Python handler before any `session.add` /
`session.commit` corresponds to returning the unchanged store together with
`.error e`.  SQLite autoincrement ids are modelled as `max existing id + 1`.
`Registration.timestamp` (set from `datetime.utcnow` at row creation and never
read by any handler) is omitted from the row model.
-/

namespace Bootstraat

/-- models.py `Status(str, Enum)`. -/
inductive Status where
  | PENDING
  | APPROVED
  | REJECTED
  deriving DecidableEq, Repr

/-- models.py `Registration`: composite primary key (event_id, visitor_id),
status defaulting to PENDING. -/
structure Registration where
  event_id : Nat
  visitor_id : Nat
  status : Status
  deriving DecidableEq, Repr

/-- models.py `Event`.  `capacity : int` in Python is unbounded and signed,
hence `Int`. `start_date` is modelled as an integer timestamp. -/
structure Event where
  id : Nat
  title : String
  description : String
  start_date : Int
  capacity : Int
  artist_id : Option Nat
  deriving DecidableEq, Repr

/-- models.py `Artist`. -/
structure Artist where
  id : Nat
  title : String
  description : Option String
  deriving DecidableEq, Repr

/-- models.py `Visitor`. -/
structure Visitor where
  id : Nat
  name : String
  email : String
  phone : String
  deriving DecidableEq, Repr

/-- The relational store: one list of rows per table. -/
structure Store where
  artists : List Artist
  events : List Event
  visitors : List Visitor
  registrations : List Registration
  deriving DecidableEq, Repr

def Store.empty : Store := ⟨[], [], [], []⟩

/-- dto.py `RegistrationCreate`: `status` is a plain `str` at the DTO layer. -/
structure RegistrationCreate where
  event_id : Nat
  visitor_id : Nat
  status : String
  deriving DecidableEq, Repr

/-- dto.py `VisitorCreate`. -/
structure VisitorCreate where
  name : String
  email : String
  phone : String
  event_ids : Option (List Nat)
  deriving DecidableEq, Repr

/-- dto.py `EventCreate`. -/
structure EventCreate where
  title : String
  description : String
  start_date : Int
  capacity : Int
  artist_name : Option String
  deriving DecidableEq, Repr

/-- dto.py `ArtistCreate`. -/
structure ArtistCreate where
  title : String
  description : Option String
  deriving DecidableEq, Repr

/-- The error taxonomy surfaced by the handlers via `HTTPException`, plus the
two failure modes that escape the handlers: a pydantic `ValidationError` from
`Registration.model_validate` on a status string outside the enum, and a
database `IntegrityError` on a primary-key collision at commit time. -/
inductive RegError where
  | notFoundArtist (name : Option String)
  | notFoundEvent (eid : Nat)
  | notFoundVisitor (vid : Nat)
  | notFoundRegistration (eid vid : Nat)
  | duplicateRegistration (eid vid : Nat)
  | capacityExceeded (eid : Nat)
  | validationError
  | integrityError
  deriving DecidableEq, Repr

/-- HTTP code attached to each error (404 / 400 in the handlers, 500 for the
exceptions not caught by any handler). -/
def RegError.httpStatus : RegError → Nat
  | .notFoundArtist _ => 404
  | .notFoundEvent _ => 404
  | .notFoundVisitor _ => 404
  | .notFoundRegistration _ _ => 404
  | .duplicateRegistration _ _ => 400
  | .capacityExceeded _ => 400
  | .validationError => 500
  | .integrityError => 500

/-- Body of a 2xx response from the register endpoint: either an entity body
or a plain message body. -/
inductive RegResponse where
  | entity (r : Registration)
  | message (text : String)
  deriving DecidableEq, Repr

/-- `session.get(Event, eid)`: lookup by primary key. -/
def findEvent (s : Store) (eid : Nat) : Option Event :=
  s.events.find? (fun e => e.id == eid)

/-- `session.get(Visitor, vid)`: lookup by primary key. -/
def findVisitor (s : Store) (vid : Nat) : Option Visitor :=
  s.visitors.find? (fun v => v.id == vid)

/-- `session.get(Artist, aid)`: lookup by primary key. -/
def findArtist (s : Store) (aid : Nat) : Option Artist :=
  s.artists.find? (fun a => a.id == aid)

/-- `session.get(Registration, (eid, vid))`: lookup by composite key. -/
def findRegistration (s : Store) (eid vid : Nat) : Option Registration :=
  s.registrations.find? (fun r => r.event_id == eid && r.visitor_id == vid)

/-- `len(event.visitors)`: the relationship through the registrations link
table loads one visitor per registration row of the event, so its length is
the number of registration rows carrying this event id. -/
def eventVisitorCount (s : Store) (eid : Nat) : Nat :=
  (s.registrations.filter (fun r => r.event_id == eid)).length

/-- Autoincrement: SQLite assigns max existing rowid + 1. -/
def nextId (ids : List Nat) : Nat := ids.foldr (fun a b => max a b) 0 + 1

/-- Pydantic validation of the `status : str` DTO field against the
`Status` enum, performed by `Registration.model_validate(payload)`. -/
def parseStatus : String → Option Status
  | "PENDING" => some Status.PENDING
  | "APPROVED" => some Status.APPROVED
  | "REJECTED" => some Status.REJECTED
  | _ => none

/-- The writes that the `create_registration` handler buffers in its session
and flushes at `session.commit()`: the new registration row and the event row
mutated in place by `event.capacity -= 1`. -/
structure PendingWrite where
  reg : Registration
  event : Event
  deriving DecidableEq, Repr

/-- The read/validate part of main.py `create_registration` (lines 347-377):
`Registration.model_validate(payload)` (which validates the status string
against the enum), then, in order, the event-exists check (404), the
visitor-exists check (404), the duplicate check (400), and the capacity check
`event.capacity <= len(event.visitors)` (400).  All of these are reads against
the store; on success the handler has buffered (not yet committed) the new row
— with its status overwritten to APPROVED — and the event row with capacity
decremented by one. -/
def check_phase (s : Store) (payload : RegistrationCreate) :
    Except RegError PendingWrite :=
  match parseStatus payload.status with
  | none => .error .validationError
  | some st =>
    match findEvent s payload.event_id with
    | none => .error (.notFoundEvent payload.event_id)
    | some event =>
      match findVisitor s payload.visitor_id with
      | none => .error (.notFoundVisitor payload.visitor_id)
      | some _ =>
        match findRegistration s payload.event_id payload.visitor_id with
        | some _ =>
          .error (.duplicateRegistration payload.event_id payload.visitor_id)
        | none =>
          if event.capacity ≤ (eventVisitorCount s payload.event_id : Int) then
            .error (.capacityExceeded payload.event_id)
          else
            let reg0 : Registration :=
              { event_id := payload.event_id, visitor_id := payload.visitor_id,
                status := st }
            .ok { reg := { reg0 with status := Status.APPROVED },
                  event := { event with capacity := event.capacity - 1 } }

/-- The `await session.commit()` of main.py `create_registration` (line 386):
flush the buffered insert and the mutated event row to the store.  The store
it applies to may differ from the snapshot the checks read, because the
handler suspends at each `await` between its reads and its commit and runs
under the default (non-serializable) isolation of the SQLite session. -/
def commit_phase (s : Store) (w : PendingWrite) : Store :=
  { s with
    registrations := s.registrations ++ [w.reg],
    events := s.events.map (fun x => if x.id == w.event.id then w.event else x) }

/-- main.py `create_registration` (POST /register, lines 343-388), as executed
by a single request with no interleaving: the checks read the store, and on
success the commit applies the buffered writes to that same store and the
handler returns a message dict.  Any `HTTPException` leaves the store
untouched because it is raised before `session.add`. -/
def create_registration (s : Store) (payload : RegistrationCreate) :
    Store × Except RegError RegResponse :=
  match check_phase s payload with
  | .error e => (s, .error e)
  | .ok w => (commit_phase s w, .ok (.message "Registration created successfully."))

/-- The interleaving that the handler's `await` points permit under the
session's default isolation: two requests both run their check phase against
the same committed snapshot, then both commit.  Returns `none` when either
check phase rejects (in which case that request raises and writes nothing). -/
def interleaved_two (s : Store) (p q : RegistrationCreate) : Option Store :=
  match check_phase s p, check_phase s q with
  | .ok w1, .ok w2 => some (commit_phase (commit_phase s w1) w2)
  | _, _ => none

/-- main.py `get_registrations` (GET /register, lines 391-402): 404 when the
table is empty, else the list of rows. -/
def get_registrations (s : Store) : Except RegError (List Registration) :=
  if s.registrations.isEmpty then
    .error (.notFoundRegistration 0 0)
  else
    .ok s.registrations

/-- main.py `delete_registration` (DELETE /register/..., lines 405-418):
404 when the row is absent, else delete the row fetched by primary key. -/
def delete_registration (s : Store) (eid vid : Nat) :
    Store × Except RegError Unit :=
  match findRegistration s eid vid with
  | none => (s, .error (.notFoundRegistration eid vid))
  | some _ =>
    ({ s with
        registrations :=
          s.registrations.eraseP
            (fun r => r.event_id == eid && r.visitor_id == vid) },
      .ok ())

/-- main.py `create_visitor` (POST /visitors, lines 259-282).  The visitor row
is committed first; then, when `event_ids` is a non-empty list, the handler
loops over the ids, raising 404 at the first missing event (the visitor row
stays committed), builds Registration rows with the default PENDING status and
no capacity check, and commits them with `add_all`.  Two equal ids in the list
collide on the composite primary key at that second commit (IntegrityError,
rolled back, the visitor row stays). -/
def create_visitor (s : Store) (payload : VisitorCreate) :
    Store × Except RegError Visitor :=
  let vid := nextId (s.visitors.map Visitor.id)
  let v : Visitor :=
    { id := vid, name := payload.name, email := payload.email,
      phone := payload.phone }
  let s1 : Store := { s with visitors := s.visitors ++ [v] }
  match payload.event_ids with
  | none => (s1, .ok v)
  | some eids =>
    if eids.isEmpty then (s1, .ok v)
    else
      match eids.find? (fun eid => (findEvent s1 eid).isNone) with
      | some eid => (s1, .error (.notFoundEvent eid))
      | none =>
        if eids.Nodup then
          let regs := eids.map (fun eid =>
            ({ event_id := eid, visitor_id := vid,
               status := Status.PENDING } : Registration))
          ({ s1 with registrations := s1.registrations ++ regs }, .ok v)
        else
          (s1, .error .integrityError)

/-- main.py `create_artist` (POST /artists, lines 188-196). -/
def create_artist (s : Store) (payload : ArtistCreate) :
    Store × Except RegError Artist :=
  let a : Artist :=
    { id := nextId (s.artists.map Artist.id), title := payload.title,
      description := payload.description }
  ({ s with artists := s.artists ++ [a] }, .ok a)

/-- main.py `create_event` (POST /events, lines 63-87): the artist is looked
up by title (`Artist.title == payload.artist_name`); a missing artist (or a
missing `artist_name`) is a 404 with no row added. -/
def create_event (s : Store) (payload : EventCreate) :
    Store × Except RegError Event :=
  match payload.artist_name.bind
      (fun nm => s.artists.find? (fun a => a.title == nm)) with
  | none => (s, .error (.notFoundArtist payload.artist_name))
  | some artist =>
    let e : Event :=
      { id := nextId (s.events.map Event.id), title := payload.title,
        description := payload.description, start_date := payload.start_date,
        capacity := payload.capacity, artist_id := some artist.id }
    ({ s with events := s.events ++ [e] }, .ok e)

/-- main.py `delete_event` (DELETE /events/..., lines 168-177): 404 when
absent; deleting the event also deletes its rows in the registrations link
table (association rows of a secondary-table relationship are removed with
their parent). -/
def delete_event (s : Store) (eid : Nat) : Store × Except RegError Unit :=
  match findEvent s eid with
  | none => (s, .error (.notFoundEvent eid))
  | some _ =>
    ({ s with
        events := s.events.filter (fun e => !(e.id == eid)),
        registrations := s.registrations.filter (fun r => !(r.event_id == eid)) },
      .ok ())

/-- main.py `delete_visitor` (DELETE /visitors/..., lines 322-331): 404 when
absent; the visitor's rows in the registrations link table go with it. -/
def delete_visitor (s : Store) (vid : Nat) : Store × Except RegError Unit :=
  match findVisitor s vid with
  | none => (s, .error (.notFoundVisitor vid))
  | some _ =>
    ({ s with
        visitors := s.visitors.filter (fun v => !(v.id == vid)),
        registrations := s.registrations.filter (fun r => !(r.visitor_id == vid)) },
      .ok ())

/-- main.py `delete_artist` (DELETE /artists/..., lines 237-246): 404 when
absent; the one-to-many relationship to events nulls the foreign key of the
artist's events on delete. -/
def delete_artist (s : Store) (aid : Nat) : Store × Except RegError Unit :=
  match findArtist s aid with
  | none => (s, .error (.notFoundArtist none))
  | some _ =>
    ({ s with
        artists := s.artists.filter (fun a => !(a.id == aid)),
        events := s.events.map (fun e =>
          if e.artist_id == some aid then { e with artist_id := none } else e) },
      .ok ())

/-- The state-mutating operations exposed by the application (the GET
handlers read the store without changing it and are omitted). -/
inductive Op where
  | createArtistOp (p : ArtistCreate)
  | createEventOp (p : EventCreate)
  | deleteEventOp (eid : Nat)
  | createVisitorOp (p : VisitorCreate)
  | deleteVisitorOp (vid : Nat)
  | createRegistrationOp (p : RegistrationCreate)
  | deleteRegistrationOp (eid vid : Nat)
  | deleteArtistOp (aid : Nat)
  deriving DecidableEq, Repr

/-- The store reached by one exposed operation (a rejected operation leaves
the store as the handler left it). -/
def applyOp (s : Store) : Op → Store
  | .createArtistOp p => (create_artist s p).1
  | .createEventOp p => (create_event s p).1
  | .deleteEventOp eid => (delete_event s eid).1
  | .createVisitorOp p => (create_visitor s p).1
  | .deleteVisitorOp vid => (delete_visitor s vid).1
  | .createRegistrationOp p => (create_registration s p).1
  | .deleteRegistrationOp eid vid => (delete_registration s eid vid).1
  | .deleteArtistOp aid => (delete_artist s aid).1

/-- The store reached from `s` by a sequence of exposed operations. -/
def applyOps (s : Store) (ops : List Op) : Store := ops.foldl applyOp s

/-- Number of registration rows carrying a given (event_id, visitor_id)
composite key. -/
def pairCount (s : Store) (eid vid : Nat) : Nat :=
  (s.registrations.filter
    (fun r => r.event_id == eid && r.visitor_id == vid)).length

/-- There is an event row with this id. -/
def eventExists (s : Store) (eid : Nat) : Prop :=
  ∃ e ∈ s.events, e.id = eid

/-- There is a visitor row with this id. -/
def visitorExists (s : Store) (vid : Nat) : Prop :=
  ∃ v ∈ s.visitors, v.id = vid

/-- There is a registration row for the composite key. -/
def pairRegistered (s : Store) (eid vid : Nat) : Prop :=
  ∃ r ∈ s.registrations, r.event_id = eid ∧ r.visitor_id = vid

/-! Concrete fixtures used to evaluate the handlers. -/

def demoVisitor (n : Nat) : Visitor :=
  { id := n, name := "v", email := "vx", phone := "0" }

def demoEvent (cap : Int) : Event :=
  { id := 1, title := "show", description := "d", start_date := 0,
    capacity := cap, artist_id := none }

/-- One event of the given capacity, three visitors, no registrations. -/
def demoStore (cap : Int) : Store :=
  { artists := [], events := [demoEvent cap],
    visitors := [demoVisitor 1, demoVisitor 2, demoVisitor 3],
    registrations := [] }

def demoPayload (n : Nat) : RegistrationCreate :=
  { event_id := 1, visitor_id := n, status := "APPROVED" }

/-! Characterization lemmas for the registration handler. -/

theorem check_phase_ok_elim {s : Store} {p : RegistrationCreate}
    {w : PendingWrite} (h : check_phase s p = .ok w) :
    ∃ st event,
      parseStatus p.status = some st ∧
      findEvent s p.event_id = some event ∧
      (findVisitor s p.visitor_id).isSome = true ∧
      findRegistration s p.event_id p.visitor_id = none ∧
      (eventVisitorCount s p.event_id : Int) < event.capacity ∧
      w = { reg := { event_id := p.event_id, visitor_id := p.visitor_id,
                     status := Status.APPROVED },
            event := { event with capacity := event.capacity - 1 } } := by
  unfold check_phase at h
  split at h
  · exact Except.noConfusion h
  next st hst =>
    split at h
    · exact Except.noConfusion h
    next event hev =>
      split at h
      · exact Except.noConfusion h
      next vis hvis =>
        split at h
        next reg hreg => exact Except.noConfusion h
        next hreg =>
          split at h
          · exact Except.noConfusion h
          next hcap =>
            refine ⟨st, event, hst, hev, by simp [hvis], hreg,
              lt_of_not_le hcap, ?_⟩
            injection h with h'
            exact h'.symm

theorem create_registration_error_store {s : Store} {p : RegistrationCreate}
    {e : RegError} (h : (create_registration s p).2 = .error e) :
    (create_registration s p).1 = s := by
  unfold create_registration at *
  cases hcp : check_phase s p with
  | error e' => rfl
  | ok w => rw [hcp] at h; exact Except.noConfusion h

theorem create_registration_ok_elim {s s' : Store} {p : RegistrationCreate}
    {resp : RegResponse} (h : create_registration s p = (s', .ok resp)) :
    ∃ w, check_phase s p = .ok w ∧ s' = commit_phase s w ∧
      resp = .message "Registration created successfully." := by
  unfold create_registration at h
  cases hcp : check_phase s p with
  | error e =>
    rw [hcp] at h
    exact Except.noConfusion (congrArg Prod.snd h)
  | ok w =>
    rw [hcp] at h
    refine ⟨w, rfl, ?_, ?_⟩
    · exact (congrArg Prod.fst h).symm
    · injection (congrArg Prod.snd h) with h'
      exact h'.symm

/-- On success the one effect on the registrations table is appending the new
row, and its status is APPROVED. -/
theorem create_registration_ok_registrations {s s' : Store}
    {p : RegistrationCreate} {resp : RegResponse}
    (h : create_registration s p = (s', .ok resp)) :
    s'.registrations = s.registrations ++
      [{ event_id := p.event_id, visitor_id := p.visitor_id,
         status := Status.APPROVED }] := by
  obtain ⟨w, hcp, hs', -⟩ := create_registration_ok_elim h
  obtain ⟨st, event, -, -, -, -, -, hw⟩ := check_phase_ok_elim hcp
  subst hs' hw
  rfl

/-! Bridging lemmas between the handlers' lookups and the relational
predicates. -/

theorem findEvent_eq_none_iff {s : Store} {eid : Nat} :
    findEvent s eid = none ↔ ¬ eventExists s eid := by
  simp [findEvent, eventExists, List.find?_eq_none]

theorem findEvent_isSome_iff {s : Store} {eid : Nat} :
    (findEvent s eid).isSome = true ↔ eventExists s eid := by
  simp [findEvent, eventExists, List.find?_isSome]

theorem findVisitor_eq_none_iff {s : Store} {vid : Nat} :
    findVisitor s vid = none ↔ ¬ visitorExists s vid := by
  simp [findVisitor, visitorExists, List.find?_eq_none]

theorem findVisitor_isSome_iff {s : Store} {vid : Nat} :
    (findVisitor s vid).isSome = true ↔ visitorExists s vid := by
  simp [findVisitor, visitorExists, List.find?_isSome]

theorem findRegistration_eq_none_iff {s : Store} {eid vid : Nat} :
    findRegistration s eid vid = none ↔ ¬ pairRegistered s eid vid := by
  simp [findRegistration, pairRegistered, List.find?_eq_none]

theorem findRegistration_isSome_iff {s : Store} {eid vid : Nat} :
    (findRegistration s eid vid).isSome = true ↔ pairRegistered s eid vid := by
  simp [findRegistration, pairRegistered, List.find?_isSome]

theorem pairCount_eq_zero_of_find_none {s : Store} {eid vid : Nat}
    (h : findRegistration s eid vid = none) : pairCount s eid vid = 0 := by
  unfold pairCount
  rw [List.length_eq_zero, List.filter_eq_nil_iff]
  exact List.find?_eq_none.mp h

/-! Which rows each exposed operation can put into the registrations
table. -/

theorem create_artist_registrations (s : Store) (p : ArtistCreate) :
    (create_artist s p).1.registrations = s.registrations := rfl

theorem create_event_registrations (s : Store) (p : EventCreate) :
    (create_event s p).1.registrations = s.registrations := by
  unfold create_event
  split <;> rfl

theorem delete_event_mem {s : Store} {eid : Nat} {r : Registration}
    (h : r ∈ (delete_event s eid).1.registrations) : r ∈ s.registrations := by
  unfold delete_event at h
  split at h
  · exact h
  · exact (List.mem_filter.mp h).1

theorem delete_visitor_mem {s : Store} {vid : Nat} {r : Registration}
    (h : r ∈ (delete_visitor s vid).1.registrations) : r ∈ s.registrations := by
  unfold delete_visitor at h
  split at h
  · exact h
  · exact (List.mem_filter.mp h).1

theorem delete_registration_mem {s : Store} {eid vid : Nat} {r : Registration}
    (h : r ∈ (delete_registration s eid vid).1.registrations) :
    r ∈ s.registrations := by
  unfold delete_registration at h
  split at h
  · exact h
  · exact (List.eraseP_sublist s.registrations).mem h

theorem delete_artist_registrations (s : Store) (aid : Nat) :
    (delete_artist s aid).1.registrations = s.registrations := by
  unfold delete_artist
  split <;> rfl

theorem create_visitor_mem {s : Store} {p : VisitorCreate} {r : Registration}
    (h : r ∈ (create_visitor s p).1.registrations) :
    r ∈ s.registrations ∨ r.status = Status.PENDING := by
  simp only [create_visitor] at h
  repeat' split at h
  all_goals
    first
      | exact Or.inl h
      | (rcases List.mem_append.mp h with h' | h'
         · exact Or.inl h'
         · obtain ⟨eid, -, rfl⟩ := List.mem_map.mp h'
           exact Or.inr rfl)

theorem create_registration_mem {s : Store} {p : RegistrationCreate}
    {r : Registration} (h : r ∈ (create_registration s p).1.registrations) :
    r ∈ s.registrations ∨ r.status = Status.APPROVED := by
  unfold create_registration at h
  split at h
  · exact Or.inl h
  next w hcp =>
    rcases List.mem_append.mp h with h' | h'
    · exact Or.inl h'
    · obtain ⟨st, event, -, -, -, -, -, hw⟩ := check_phase_ok_elim hcp
      rw [List.mem_singleton.mp h', hw]
      exact Or.inr rfl

theorem applyOp_mem {s : Store} {o : Op} {r : Registration}
    (h : r ∈ (applyOp s o).registrations) :
    r ∈ s.registrations ∨ r.status ≠ Status.REJECTED := by
  cases o with
  | createArtistOp p => exact Or.inl (create_artist_registrations s p ▸ h)
  | createEventOp p => exact Or.inl (create_event_registrations s p ▸ h)
  | deleteEventOp eid => exact Or.inl (delete_event_mem h)
  | createVisitorOp p =>
    rcases create_visitor_mem h with h' | h'
    · exact Or.inl h'
    · exact Or.inr (by rw [h']; exact fun hc => Status.noConfusion hc)
  | deleteVisitorOp vid => exact Or.inl (delete_visitor_mem h)
  | createRegistrationOp p =>
    rcases create_registration_mem h with h' | h'
    · exact Or.inl h'
    · exact Or.inr (by rw [h']; exact fun hc => Status.noConfusion hc)
  | deleteRegistrationOp eid vid => exact Or.inl (delete_registration_mem h)
  | deleteArtistOp aid => exact Or.inl (delete_artist_registrations s aid ▸ h)

/-- REJECTED never enters the registrations table: the property is preserved
by every exposed operation. -/
theorem applyOps_no_rejected (ops : List Op) :
    ∀ s : Store, (∀ r ∈ s.registrations, r.status ≠ Status.REJECTED) →
      ∀ r ∈ (applyOps s ops).registrations, r.status ≠ Status.REJECTED := by
  induction ops with
  | nil => exact fun s hs => hs
  | cons o ops ih =>
    intro s hs
    exact ih (applyOp s o)
      (fun r hr => (applyOp_mem hr).elim (hs r) id)

/-! Lemmas about the store a successful registration commits. -/

theorem findVisitor_commit (s : Store) (w : PendingWrite) (vid : Nat) :
    findVisitor (commit_phase s w) vid = findVisitor s vid := rfl

theorem findEvent_commit_isSome {s : Store} {w : PendingWrite} {eid : Nat}
    {event : Event} (hev : findEvent s eid = some event)
    (hid : w.event.id = event.id) :
    (findEvent (commit_phase s w) eid).isSome = true := by
  apply List.find?_isSome.mpr
  refine ⟨w.event, ?_, ?_⟩
  · apply List.mem_map.mpr
    refine ⟨event, List.mem_of_find?_eq_some hev, ?_⟩
    simp [hid]
  · have hpe := List.find?_some hev
    simp only [hid]
    simpa using hpe

theorem findRegistration_commit {s : Store} {w : PendingWrite} {eid vid : Nat}
    (hn : findRegistration s eid vid = none)
    (he : w.reg.event_id = eid) (hv : w.reg.visitor_id = vid) :
    findRegistration (commit_phase s w) eid vid = some w.reg := by
  unfold findRegistration at hn ⊢
  show List.find? _ (s.registrations ++ [w.reg]) = some w.reg
  rw [List.find?_append, hn]
  simp [List.find?, he, hv]

theorem create_registration_ok_pairCount {s s' : Store}
    {p : RegistrationCreate} {resp : RegResponse}
    (h : create_registration s p = (s', .ok resp)) :
    pairCount s' p.event_id p.visitor_id = 1 := by
  obtain ⟨w, hcp, hs', -⟩ := create_registration_ok_elim h
  obtain ⟨st, event, hst, hev, hvis, hreg, hcap, hw⟩ := check_phase_ok_elim hcp
  subst hs'
  unfold pairCount
  show (List.filter _ (s.registrations ++ [w.reg])).length = 1
  rw [List.filter_append,
    List.filter_eq_nil_iff.mpr (List.find?_eq_none.mp hreg), hw]
  simp [List.filter]

/-- After a successful registration, any further request for the same
(event, visitor) pair whose status string validates hits the duplicate check
and leaves the store as it was. -/
theorem create_registration_after_ok {s s' : Store} {p : RegistrationCreate}
    {resp : RegResponse} (h : create_registration s p = (s', .ok resp))
    {q : RegistrationCreate} (hqe : q.event_id = p.event_id)
    (hqv : q.visitor_id = p.visitor_id)
    (hqs : (parseStatus q.status).isSome = true) :
    create_registration s' q =
      (s', .error (.duplicateRegistration q.event_id q.visitor_id)) := by
  obtain ⟨w, hcp, hs', -⟩ := create_registration_ok_elim h
  obtain ⟨st, event, hst, hev, hvis, hreg, hcap, hw⟩ := check_phase_ok_elim hcp
  obtain ⟨st', hst'⟩ := Option.isSome_iff_exists.mp hqs
  subst hs'
  have hcp' : check_phase (commit_phase s w) q =
      .error (.duplicateRegistration q.event_id q.visitor_id) := by
    have hsome := findEvent_commit_isSome (w := w) hev (by rw [hw])
    rcases hfe : findEvent (commit_phase s w) q.event_id with _ | e'
    · rw [hqe] at hfe
      rw [hfe] at hsome
      exact Bool.noConfusion hsome
    · rcases hfv : findVisitor (commit_phase s w) q.visitor_id with _ | v0
      · rw [findVisitor_commit, hqv] at hfv
        rw [hfv] at hvis
        exact Bool.noConfusion hvis
      · have hfr : findRegistration (commit_phase s w) q.event_id q.visitor_id
            = some w.reg := by
          rw [hqe, hqv]
          exact findRegistration_commit hreg (by rw [hw]) (by rw [hw])
        unfold check_phase
        rw [hst', hfe, hfv, hfr]
  unfold create_registration
  rw [hcp']

/-! Claim theorems. -/

/-- Claim C1: the claim says that for an event of capacity C, N > C
registration attempts by distinct visitors commit exactly C rows and never
more than C.  Evaluating the code at the failing inputs: for an event of
declared capacity 2, the first attempt succeeds but the second attempt by a
distinct visitor is already rejected with capacity-exceeded (the handler
decremented the stored capacity to 1, and 1 ≤ 1 occupant), so only one of
three possible seats out of the declared two is ever filled; and for an event
of declared capacity 0, `create_visitor` with `event_ids` commits one
registration row, exceeding the declared capacity, because that path performs
no capacity check at all. -/
theorem C1_capacity_claim_fails_on_code :
    (create_registration (demoStore 2) (demoPayload 1)).2
        = .ok (.message "Registration created successfully.") ∧
    (create_registration (create_registration (demoStore 2) (demoPayload 1)).1
        (demoPayload 2)).2 = .error (.capacityExceeded 1) ∧
    eventVisitorCount (create_registration (demoStore 2) (demoPayload 1)).1 1
        = 1 ∧
    (demoEvent 2).capacity = 2 ∧
    eventVisitorCount
      (create_visitor (demoStore 0)
        { name := "n", email := "e", phone := "0",
          event_ids := some [1] }).1 1 = 1 ∧
    (demoEvent 0).capacity = 0 :=
  ⟨rfl, rfl, rfl, rfl, rfl, rfl⟩

/-- Claim C2: the claim says a successful `create_registration` leaves every
field of the referenced Event record unchanged.  Evaluating the code at the
failing input: the event is stored with declared capacity 1, and after one
successful registration the stored event row has capacity 0 — the handler
executes `event.capacity -= 1` and commits the mutated row. -/
theorem C2_event_capacity_mutated :
    (demoEvent 1).capacity = 1 ∧
    (create_registration (demoStore 1) (demoPayload 1)).2
        = .ok (.message "Registration created successfully.") ∧
    findEvent (create_registration (demoStore 1) (demoPayload 1)).1 1
        = some { demoEvent 1 with capacity := 0 } :=
  ⟨rfl, rfl, rfl⟩

/-- Claim C3: the claim says the four checks and the insert run inside one
serializable transaction, so two concurrent callers cannot both observe room
and both commit.  The handler has no such boundary: it suspends at each
`await` between its reads and its `session.commit()` under the session's
default isolation, so the schedule in which both requests run their check
phase against the same snapshot and then both commit is permitted.
Evaluating that schedule for an event of capacity 1 and two distinct
visitors: both check phases pass and both commits land, leaving 2 committed
registrations for the capacity-1 event. -/
theorem C3_concurrent_overbooking :
    (demoEvent 1).capacity = 1 ∧
    (interleaved_two (demoStore 1) (demoPayload 1) (demoPayload 2)).map
        (fun t => eventVisitorCount t 1) = some 2 :=
  ⟨rfl, rfl⟩

/-- Claim C4: the claim says that after deleting a registration the same pair
can register again (assuming occupancy within declared capacity).  Evaluating
the code at the failing input: event of declared capacity 1; visitor 1
registers (success), the registration is deleted (occupancy back to 0, which
is within the declared capacity of 1), and the re-registration attempt is
rejected with capacity-exceeded, because the successful registration
decremented the stored capacity to 0 and the delete did not restore it. -/
theorem C4_reregistration_blocked :
    (demoEvent 1).capacity = 1 ∧
    (create_registration (demoStore 1) (demoPayload 1)).2
        = .ok (.message "Registration created successfully.") ∧
    (delete_registration
        (create_registration (demoStore 1) (demoPayload 1)).1 1 1).2
        = .ok () ∧
    eventVisitorCount
        (delete_registration
          (create_registration (demoStore 1) (demoPayload 1)).1 1 1).1 1
        = 0 ∧
    (create_registration
        (delete_registration
          (create_registration (demoStore 1) (demoPayload 1)).1 1 1).1
        (demoPayload 1)).2 = .error (.capacityExceeded 1) :=
  ⟨rfl, rfl, rfl, rfl, rfl⟩

/-- Operation sequence reaching a store with an observable PENDING row:
create an artist, create an event for it, then create a visitor with
`event_ids` pointing at that event. -/
def C5ops : List Op :=
  [Op.createArtistOp { title := "a", description := none },
   Op.createEventOp { title := "show", description := "d", start_date := 0,
                      capacity := 5, artist_name := some "a" },
   Op.createVisitorOp { name := "n", email := "e", phone := "0",
                        event_ids := some [1] }]

/-- Claim C5 counterexample: the claim says no reachable store state contains
an externally observable Registration with status PENDING.  Reaching a store
from empty through three exposed operations, the registrations listing
returns a committed row with status PENDING: `create_visitor`'s `event_ids`
path inserts rows with the model's default PENDING status and never sets
APPROVED. -/
theorem C5_pending_row_observable :
    get_registrations (applyOps Store.empty C5ops)
      = .ok [{ event_id := 1, visitor_id := 1, status := Status.PENDING }] :=
  rfl

/-- Claim C5 as amended: no reachable store state contains a Registration
with status REJECTED; a successful `create_registration` appends exactly one
row and that row's status is APPROVED; and a rejected `create_registration`
attempt produces no row at all.  (Registrations inserted through
`create_visitor`'s `event_ids` path, however, are committed with status
PENDING and are externally observable.) -/
theorem C5_amended_status_invariant :
    (∀ ops : List Op, ∀ r ∈ (applyOps Store.empty ops).registrations,
        r.status ≠ Status.REJECTED) ∧
    (∀ (s s' : Store) (p : RegistrationCreate) (resp : RegResponse),
        create_registration s p = (s', .ok resp) →
        s'.registrations = s.registrations ++
          [{ event_id := p.event_id, visitor_id := p.visitor_id,
             status := Status.APPROVED }]) ∧
    (∀ (s : Store) (p : RegistrationCreate) (e : RegError),
        (create_registration s p).2 = .error e →
        (create_registration s p).1 = s) := by
  refine ⟨?_, ?_, ?_⟩
  · intro ops r hr
    exact applyOps_no_rejected ops Store.empty
      (fun r hr => absurd hr (by simp [Store.empty])) r hr
  · intro s s' p resp h
    exact create_registration_ok_registrations h
  · intro s p e h
    exact create_registration_error_store h

/-- Closed instantiation of `C5_amended_status_invariant`: the PENDING row
reached by `C5ops` is not REJECTED; a concrete successful call appends the
APPROVED row; a concrete failed call leaves the empty store unchanged. -/
theorem C5_amended_status_invariant_witness :
    ({ event_id := 1, visitor_id := 1,
       status := Status.PENDING } : Registration).status ≠ Status.REJECTED ∧
    (create_registration (demoStore 1) (demoPayload 1)).1.registrations
      = (demoStore 1).registrations ++
        [{ event_id := 1, visitor_id := 1, status := Status.APPROVED }] ∧
    (create_registration Store.empty (demoPayload 1)).1 = Store.empty :=
  ⟨C5_amended_status_invariant.1 C5ops
      { event_id := 1, visitor_id := 1, status := Status.PENDING }
      (by decide),
   C5_amended_status_invariant.2.1 (demoStore 1)
      (create_registration (demoStore 1) (demoPayload 1)).1
      (demoPayload 1) (.message "Registration created successfully.") rfl,
   C5_amended_status_invariant.2.2 Store.empty (demoPayload 1)
      (.notFoundEvent 1) rfl⟩

/-- Claim C6 counterexample: the claim says the 201 response body of a
successful `create_registration` is the persisted Registration entity.  At a
concrete successful call the handler returns the fixed dict
`message: Registration created successfully.` — in particular not the entity
body carrying the persisted row (event 1, visitor 1, APPROVED). -/
theorem C6_success_body_is_message_not_entity :
    (create_registration (demoStore 1) (demoPayload 1)).2
        = .ok (.message "Registration created successfully.") ∧
    (create_registration (demoStore 1) (demoPayload 1)).2
        ≠ .ok (.entity { event_id := 1, visitor_id := 1,
                         status := Status.APPROVED }) :=
  ⟨rfl, by intro hc; injection hc with h1; exact RegResponse.noConfusion h1⟩

/-- Claim C6 as amended: on success `create_registration` persists the
Registration row with final status APPROVED, but its 201 response body is the
fixed success message, not the registration entity. -/
theorem C6_amended_message_response :
    ∀ (s s' : Store) (p : RegistrationCreate) (resp : RegResponse),
      create_registration s p = (s', .ok resp) →
      resp = .message "Registration created successfully." ∧
      s'.registrations = s.registrations ++
        [{ event_id := p.event_id, visitor_id := p.visitor_id,
           status := Status.APPROVED }] := by
  intro s s' p resp h
  obtain ⟨w, -, -, hresp⟩ := create_registration_ok_elim h
  exact ⟨hresp, create_registration_ok_registrations h⟩

/-- Closed instantiation of `C6_amended_message_response` at a concrete
successful call. -/
theorem C6_amended_message_response_witness :
    RegResponse.message "Registration created successfully."
        = .message "Registration created successfully." ∧
    (create_registration (demoStore 1) (demoPayload 1)).1.registrations
      = (demoStore 1).registrations ++
        [{ event_id := 1, visitor_id := 1, status := Status.APPROVED }] :=
  C6_amended_message_response (demoStore 1)
    (create_registration (demoStore 1) (demoPayload 1)).1
    (demoPayload 1) (.message "Registration created successfully.") rfl

theorem create_registration_of_check_error {s : Store}
    {p : RegistrationCreate} {e : RegError} (hcp : check_phase s p = .error e) :
    create_registration s p = (s, .error e) := by
  unfold create_registration
  rw [hcp]

/-- Claim C7 counterexample: the claim says that for every input the error
returned by `create_registration` is the one of the first failing check, the
NotFound cases as 404.  For the input (event 1, visitor 1, status garbage)
against the empty store, the first failing check is the event-exists check —
the claim demands NotFound(event) with 404 — but the code fails in
`Registration.model_validate` before any check runs, with a validation error
surfaced as a 500. -/
theorem C7_validation_preempts_first_check :
    findEvent Store.empty 1 = none ∧
    (create_registration Store.empty
        { event_id := 1, visitor_id := 1, status := "garbage" }).2
      = .error .validationError ∧
    RegError.validationError.httpStatus = 500 :=
  ⟨rfl, rfl, rfl⟩

/-- Claim C7 as amended: for every input whose payload status string is a
valid Status value (as dto.py documents it must be), the four precondition
checks run in the fixed order event-exists, visitor-exists, duplicate,
capacity, the error returned is the one of the first failing check, the
NotFound cases surface as 404 and the two Conflict cases as 400, and when all
four pass the call succeeds.  The capacity compared against is the event
row's current capacity field. -/
theorem C7_amended_check_order :
    ∀ (s : Store) (p : RegistrationCreate) (st : Status),
      parseStatus p.status = some st →
      ((¬ eventExists s p.event_id →
          (create_registration s p).2 = .error (.notFoundEvent p.event_id) ∧
          (RegError.notFoundEvent p.event_id).httpStatus = 404) ∧
       (eventExists s p.event_id → ¬ visitorExists s p.visitor_id →
          (create_registration s p).2 = .error (.notFoundVisitor p.visitor_id) ∧
          (RegError.notFoundVisitor p.visitor_id).httpStatus = 404) ∧
       (eventExists s p.event_id → visitorExists s p.visitor_id →
          pairRegistered s p.event_id p.visitor_id →
          (create_registration s p).2
            = .error (.duplicateRegistration p.event_id p.visitor_id) ∧
          (RegError.duplicateRegistration p.event_id p.visitor_id).httpStatus
            = 400) ∧
       (∀ event : Event, findEvent s p.event_id = some event →
          visitorExists s p.visitor_id →
          ¬ pairRegistered s p.event_id p.visitor_id →
          event.capacity ≤ (eventVisitorCount s p.event_id : Int) →
          (create_registration s p).2 = .error (.capacityExceeded p.event_id) ∧
          (RegError.capacityExceeded p.event_id).httpStatus = 400) ∧
       (∀ event : Event, findEvent s p.event_id = some event →
          visitorExists s p.visitor_id →
          ¬ pairRegistered s p.event_id p.visitor_id →
          (eventVisitorCount s p.event_id : Int) < event.capacity →
          ((create_registration s p).2).isOk = true)) := by
  intro s p st hst
  refine ⟨?_, ?_, ?_, ?_, ?_⟩
  · intro hne
    have hfe := findEvent_eq_none_iff.mpr hne
    have hcp : check_phase s p = .error (.notFoundEvent p.event_id) := by
      unfold check_phase
      rw [hst, hfe]
    rw [create_registration_of_check_error hcp]
    exact ⟨rfl, rfl⟩
  · intro he hnv
    obtain ⟨event, hfe⟩ :=
      Option.isSome_iff_exists.mp (findEvent_isSome_iff.mpr he)
    have hfv := findVisitor_eq_none_iff.mpr hnv
    have hcp : check_phase s p = .error (.notFoundVisitor p.visitor_id) := by
      unfold check_phase
      rw [hst, hfe, hfv]
    rw [create_registration_of_check_error hcp]
    exact ⟨rfl, rfl⟩
  · intro he hv hp
    obtain ⟨event, hfe⟩ :=
      Option.isSome_iff_exists.mp (findEvent_isSome_iff.mpr he)
    obtain ⟨v0, hfv⟩ :=
      Option.isSome_iff_exists.mp (findVisitor_isSome_iff.mpr hv)
    obtain ⟨r0, hfr⟩ :=
      Option.isSome_iff_exists.mp (findRegistration_isSome_iff.mpr hp)
    have hcp : check_phase s p
        = .error (.duplicateRegistration p.event_id p.visitor_id) := by
      unfold check_phase
      rw [hst, hfe, hfv, hfr]
    rw [create_registration_of_check_error hcp]
    exact ⟨rfl, rfl⟩
  · intro event hfe hv hnp hcap
    obtain ⟨v0, hfv⟩ :=
      Option.isSome_iff_exists.mp (findVisitor_isSome_iff.mpr hv)
    have hfr := findRegistration_eq_none_iff.mpr hnp
    have hcp : check_phase s p = .error (.capacityExceeded p.event_id) := by
      unfold check_phase
      simp only [hst, hfe, hfv, hfr]
      rw [if_pos hcap]
    rw [create_registration_of_check_error hcp]
    exact ⟨rfl, rfl⟩
  · intro event hfe hv hnp hlt
    obtain ⟨v0, hfv⟩ :=
      Option.isSome_iff_exists.mp (findVisitor_isSome_iff.mpr hv)
    have hfr := findRegistration_eq_none_iff.mpr hnp
    have hcp : check_phase s p =
        .ok { reg := { event_id := p.event_id, visitor_id := p.visitor_id,
                       status := Status.APPROVED },
              event := { event with capacity := event.capacity - 1 } } := by
      unfold check_phase
      simp only [hst, hfe, hfv, hfr]
      rw [if_neg (not_le.mpr hlt)]
    unfold create_registration
    rw [hcp]
    rfl

/-- Closed instantiation of `C7_amended_check_order`: against the store with
one full event (capacity 0) and visitors 1..3, the attempt by visitor 1 is
rejected by the capacity check with a 400, and against the empty store the
same attempt is rejected by the event-exists check with a 404. -/
theorem C7_amended_check_order_witness :
    ((create_registration (demoStore 0) (demoPayload 1)).2
        = .error (.capacityExceeded 1) ∧
      (RegError.capacityExceeded 1).httpStatus = 400) ∧
    ((create_registration Store.empty (demoPayload 1)).2
        = .error (.notFoundEvent 1) ∧
      (RegError.notFoundEvent 1).httpStatus = 404) :=
  ⟨(C7_amended_check_order (demoStore 0) (demoPayload 1) Status.APPROVED
      rfl).2.2.2.1 (demoEvent 0) rfl
      (by exact ⟨demoVisitor 1, by simp [demoStore], rfl⟩)
      (by simp [pairRegistered, demoStore])
      (by decide),
   (C7_amended_check_order Store.empty (demoPayload 1) Status.APPROVED
      rfl).1 (by simp [eventExists, Store.empty])⟩

/-- Claim C8: a `create_registration` call that fails — any precondition,
including the status validation — leaves the store exactly unchanged: no
registration row, no modification of any other record. -/
theorem C8_failed_attempt_leaves_store_unchanged :
    ∀ (s : Store) (p : RegistrationCreate) (e : RegError),
      (create_registration s p).2 = .error e →
      (create_registration s p).1 = s :=
  fun _ _ _ h => create_registration_error_store h

/-- Closed instantiation of `C8_failed_attempt_leaves_store_unchanged` at a
capacity-exceeded rejection against a concrete store. -/
theorem C8_failed_attempt_leaves_store_unchanged_witness :
    (create_registration (demoStore 0) (demoPayload 1)).1 = demoStore 0 :=
  C8_failed_attempt_leaves_store_unchanged (demoStore 0) (demoPayload 1)
    (.capacityExceeded 1) rfl

/-- A sequence of registration requests run one after the other. -/
def runRegistrations (s : Store) (qs : List RegistrationCreate) : Store :=
  qs.foldl (fun t q => (create_registration t q).1) s

/-- Claim C9 counterexample: the claim says every further
`create_registration` for the same pair fails with the duplicate conflict.
After visitor 1 successfully registers for event 1, a further request for the
same pair whose status string is garbage fails in
`Registration.model_validate` with the validation error (surfaced as a 500),
not with the duplicate conflict. -/
theorem C9_invalid_status_retry_not_duplicate :
    (create_registration (demoStore 1) (demoPayload 1)).2
        = .ok (.message "Registration created successfully.") ∧
    (create_registration (create_registration (demoStore 1) (demoPayload 1)).1
        { demoPayload 1 with status := "garbage" }).2
      = .error .validationError ∧
    (create_registration (create_registration (demoStore 1) (demoPayload 1)).1
        { demoPayload 1 with status := "garbage" }).2
      ≠ .error (.duplicateRegistration 1 1) :=
  ⟨rfl, rfl, by intro hc; injection hc with h1; exact RegError.noConfusion h1⟩

/-- Claim C9 as amended: after one successful `create_registration` for a
pair, exactly one registration row for the pair persists; every further
request for the same pair whose status string is a valid Status value fails
with the duplicate conflict and changes nothing; a further request for the
pair with an invalid status string fails too, but with the validation error
rather than the duplicate conflict, and also changes nothing; so any sequence
of further same-pair requests leaves the store — and the single persisted
row — untouched. -/
theorem C9_duplicate_conflict_single_row :
    ∀ (s s' : Store) (p : RegistrationCreate) (resp : RegResponse),
      create_registration s p = (s', .ok resp) →
      pairCount s' p.event_id p.visitor_id = 1 ∧
      (∀ q : RegistrationCreate, q.event_id = p.event_id →
          q.visitor_id = p.visitor_id →
          (parseStatus q.status).isSome = true →
          create_registration s' q
            = (s', .error (.duplicateRegistration q.event_id q.visitor_id))) ∧
      (∀ q : RegistrationCreate, parseStatus q.status = none →
          create_registration s' q = (s', .error .validationError)) ∧
      (∀ qs : List RegistrationCreate,
          (∀ q ∈ qs, q.event_id = p.event_id ∧ q.visitor_id = p.visitor_id) →
          runRegistrations s' qs = s' ∧
          pairCount (runRegistrations s' qs) p.event_id p.visitor_id = 1) := by
  intro s s' p resp h
  have hone := create_registration_ok_pairCount h
  have hdup : ∀ q : RegistrationCreate, q.event_id = p.event_id →
      q.visitor_id = p.visitor_id → (parseStatus q.status).isSome = true →
      create_registration s' q
        = (s', .error (.duplicateRegistration q.event_id q.visitor_id)) :=
    fun q hqe hqv hqs => create_registration_after_ok h hqe hqv hqs
  have hbad : ∀ q : RegistrationCreate, parseStatus q.status = none →
      create_registration s' q = (s', .error .validationError) := by
    intro q hqn
    refine create_registration_of_check_error ?_
    unfold check_phase
    rw [hqn]
  have hstep : ∀ q : RegistrationCreate, q.event_id = p.event_id →
      q.visitor_id = p.visitor_id → (create_registration s' q).1 = s' := by
    intro q hqe hqv
    rcases hqs : parseStatus q.status with _ | st
    · exact congrArg Prod.fst (hbad q hqs)
    · exact congrArg Prod.fst (hdup q hqe hqv (by rw [hqs]; rfl))
  have hrun : ∀ qs : List RegistrationCreate,
      (∀ q ∈ qs, q.event_id = p.event_id ∧ q.visitor_id = p.visitor_id) →
      runRegistrations s' qs = s' := by
    intro qs
    induction qs with
    | nil => exact fun _ => rfl
    | cons q qs ih =>
      intro hqs
      have hq := hqs q (List.mem_cons_self q qs)
      show List.foldl (fun t q => (create_registration t q).1)
        ((create_registration s' q).1) qs = s'
      rw [hstep q hq.1 hq.2]
      exact ih (fun r hr => hqs r (List.mem_cons_of_mem q hr))
  exact ⟨hone, hdup, hbad, fun qs hqs =>
    ⟨hrun qs hqs, by rw [hrun qs hqs]; exact hone⟩⟩

/-- Closed instantiation of `C9_duplicate_conflict_single_row`: visitor 1
registers for the capacity-1 event; the row count for the pair is 1 and the
repeated request is rejected as a duplicate with the store unchanged. -/
theorem C9_duplicate_conflict_single_row_witness :
    pairCount (create_registration (demoStore 1) (demoPayload 1)).1 1 1 = 1 ∧
    create_registration (create_registration (demoStore 1) (demoPayload 1)).1
        (demoPayload 1)
      = ((create_registration (demoStore 1) (demoPayload 1)).1,
         .error (.duplicateRegistration 1 1)) :=
  ⟨(C9_duplicate_conflict_single_row (demoStore 1)
      (create_registration (demoStore 1) (demoPayload 1)).1 (demoPayload 1)
      (.message "Registration created successfully.") rfl).1,
   (C9_duplicate_conflict_single_row (demoStore 1)
      (create_registration (demoStore 1) (demoPayload 1)).1 (demoPayload 1)
      (.message "Registration created successfully.") rfl).2.1
      (demoPayload 1) rfl rfl rfl⟩

/-- Claim C10 counterexample: the claim says the payload's status field has
no influence on the outcome of `create_registration`.  Two calls against the
same store, identical except for the status field: with status APPROVED the
call succeeds, with status garbage it fails with a validation error from
`Registration.model_validate`. -/
theorem C10_status_changes_outcome :
    ({ demoPayload 1 with status := "garbage" }).event_id
        = (demoPayload 1).event_id ∧
    ({ demoPayload 1 with status := "garbage" }).visitor_id
        = (demoPayload 1).visitor_id ∧
    (create_registration (demoStore 1) (demoPayload 1)).2
        = .ok (.message "Registration created successfully.") ∧
    (create_registration (demoStore 1)
        { demoPayload 1 with status := "garbage" }).2
      = .error .validationError :=
  ⟨rfl, rfl, rfl, rfl⟩

/-- Claim C10 as amended: among payloads whose status string is a valid
Status value, the status has no influence: two calls identical except for
their (valid) status fields return the same result and the same store, and
on success the persisted row's status is APPROVED either way. -/
theorem C10_amended_valid_status_no_influence :
    (∀ (s : Store) (p₁ p₂ : RegistrationCreate) (st₁ st₂ : Status),
        p₁.event_id = p₂.event_id → p₁.visitor_id = p₂.visitor_id →
        parseStatus p₁.status = some st₁ → parseStatus p₂.status = some st₂ →
        create_registration s p₁ = create_registration s p₂) ∧
    (∀ (s s' : Store) (p : RegistrationCreate) (resp : RegResponse),
        create_registration s p = (s', .ok resp) →
        s'.registrations = s.registrations ++
          [{ event_id := p.event_id, visitor_id := p.visitor_id,
             status := Status.APPROVED }]) := by
  constructor
  · intro s p₁ p₂ st₁ st₂ he hv h1 h2
    unfold create_registration check_phase
    rw [h1, h2, he, hv]
  · intro s s' p resp h
    exact create_registration_ok_registrations h

end Bootstraat
